import Mathlib

/-!
# Portal: a verification development

A shallow embedding of the `portal` file-transfer utility and theorems about it.

* `Portal.Main`      : `cmd/portal/main.go` (the `receive` command and `initConfig`).
* `Portal.SenderUI`  : `ui/sender/sender.go` (the bubbletea model of the sender).
* `Portal.Crypto`    : the primitives that the specification names for the secured channel.
* `Portal.Conn`      : `internal/conn`, of which only the test `conn_test.go` is a source
  file: the transport of the test is embedded, the package is modelled from the
  specification.

Library code (cobra, viper, bubbletea, lipgloss, the `ui` and `tools` packages) is not
part of the embedded sources; what the embedded functions call from there is taken as a
parameter and never given a behaviour of its own.
-/

namespace Portal

/-! ## `cmd/portal/main.go` -/

namespace Main

/-- The struct `models.ProgramOptions` that the command handlers receive. -/
structure ProgramOptions where
  RendezvousAddress : String
  RendezvousPort : Int
deriving DecidableEq, Repr

/-- The package-level variable `programOptions` (the parsed `-v`, `-s`, `-p` flags). -/
structure programOptions where
  Verbose : String
  RendezvousAddress : String
  RendezvousPort : Int
deriving DecidableEq, Repr

/-- What a cobra `Run` function of `main.go` does, as seen from outside: it prints and
calls `os.Exit`, or it hands over to a command handler, or it indexes out of range. -/
inductive RunOutcome where
  | exit (code : Nat) (stdout : String)
  | handleReceiveCommand (opts : ProgramOptions) (password : String)
  | indexOutOfRange
deriving DecidableEq, Repr

/-- The result of `fmt.Println(s)`: the text and a newline. -/
def Println (s : String) : String := s ++ "\n"

/-- The `Run` function of the `receive` command (`main.go`, lines 82-92). The global
`programOptions` is in scope of the function and therefore an argument here. -/
def receiveRun (_po : programOptions) (args : List String) : RunOutcome :=
  if args.length > 1 then
    RunOutcome.exit 1 (Println "Provide a single password, for instance 1-cosmic-ray-quasar.")
  else if args.length < 1 then
    RunOutcome.exit 1
      (Println "Provide the password that the file sender gave to you, for instance 1-galaxy-dust-aurora.")
  else
    match args[0]? with
    | some password =>
      RunOutcome.handleReceiveCommand
        { RendezvousAddress := "1", RendezvousPort := 1 } password
    | none => RunOutcome.indexOutOfRange

/-- The values of package `constants` that `initConfig` reads, and `filepath.Join`. -/
structure Constants where
  CONFIG_FILE_NAME : String
  DEFAULT_CONFIG_YAML : String
  filepathJoin : String → String → String

/-- The error of `viper.ReadInConfig`, by the one distinction `initConfig` makes. -/
inductive ReadInConfigError where
  | ConfigFileNotFoundError
  | otherError (text : String)
deriving DecidableEq, Repr

/-- The answers of the operating system and of viper during one call of `initConfig`:
each `Option` error is `none` when the call succeeds. -/
structure InitEnv where
  /-- The result of `homedir.Dir()`: the home directory, or the error text. -/
  homedirDir : Except String String
  /-- The error of `viper.ReadInConfig()`. -/
  readInConfig : Option ReadInConfigError
  /-- The error of `os.Create(configPath)`. -/
  osCreate : Option String
  /-- The failure of `configFile.Write(...)`: the number of bytes written and the error. -/
  fileWrite : Option (Nat × String)

/-- A file system: the files that exist, with their content. -/
abbrev FS := List (String × String)

/-- The content of the file at `path`, if it exists. -/
def FS.read (fs : FS) (path : String) : Option String :=
  (fs.find? (fun f => f.1 == path)).map (fun f => f.2)

/-- The file system after creating (or truncating) `path` and writing `content`. -/
def FS.put (fs : FS) (path : String) (content : String) : FS :=
  (path, content) :: fs.filter (fun f => f.1 != path)

/-- The state in which `initConfig` leaves the process. -/
structure InitResult where
  fs : FS
  stdout : String
  /-- The status passed to `os.Exit`, or `none` when `initConfig` returns. -/
  exit : Option Nat
deriving DecidableEq, Repr

/-- The function `initConfig` (`main.go`, lines 110-148). -/
def initConfig (k : Constants) (env : InitEnv) (fs : FS) : InitResult :=
  match env.homedirDir with
  | Except.error err => { fs := fs, stdout := Println err, exit := some 1 }
  | Except.ok home =>
    match env.readInConfig with
    | none => { fs := fs, stdout := "", exit := none }
    | some ReadInConfigError.ConfigFileNotFoundError =>
      let configPath := k.filepathJoin home k.CONFIG_FILE_NAME
      match env.osCreate with
      | some err =>
        { fs := fs, stdout := Println ("Could not create config file: " ++ err), exit := some 1 }
      | none =>
        match env.fileWrite with
        | some (n, err) =>
          { fs := fs.put configPath (String.mk (k.DEFAULT_CONFIG_YAML.data.take n)),
            stdout := Println ("Could not write defaults to config file: " ++ err),
            exit := some 1 }
        | none =>
          { fs := fs.put configPath k.DEFAULT_CONFIG_YAML, stdout := "", exit := none }
    | some (ReadInConfigError.otherError err) =>
      { fs := fs, stdout := Println ("Could not read config file: " ++ err), exit := some 1 }

end Main

/-! ## `ui/sender/sender.go` -/

namespace SenderUI

/-- The constant `copyPasswordKey`. -/
def copyPasswordKey : String := "c"

/-- The type `uiState`; the constructors are in the order of the `iota` block. -/
inductive uiState where
  | showPasswordWithCopy
  | showPassword
  | showSendingProgress
  | showFinished
  | showError
deriving DecidableEq, Repr

open uiState

/-- The integer that the `iota` block gives a state. -/
def uiState.toInt : uiState → Int
  | showPasswordWithCopy => 0
  | showPassword => 1
  | showSendingProgress => 2
  | showFinished => 3
  | showError => 4

/-- An open file `*os.File`, by the name of its handle. -/
abbrev File := Nat

/-- A value of `conn.Rendezvous`, by the name of its connection. -/
abbrev Rendezvous := Nat

/-- A value of `conn.Transfer`, by the name of its connection. -/
abbrev Transfer := Nat

/-- The channel `chan interface{}`, by its name. -/
abbrev Chan := Nat

/-- The struct `net.TCPAddr`. -/
structure TCPAddr where
  IP : List Nat
  Port : Int
  Zone : String
deriving DecidableEq, Repr

/-- The struct `spinner.Model` of bubbles: the two fields `resetSpinner` assigns, and the
rest of the library's state. -/
structure SpinnerModel where
  Spinner : Nat
  Style : Nat
  internal : Nat
deriving DecidableEq, Repr

/-- The struct `progress.Model` of bubbles: the field `Update` assigns, and the rest of the
library's state. -/
structure ProgressModel where
  Width : Int
  internal : Nat
deriving DecidableEq, Repr

/-- The messages `Update` receives, one constructor for each case of its type switch.
`ErrorMsg` carries the text `msg.Error()`, `KeyMsg` the text `msg.String()`; `otherMsg`
is a message of any other type (a `spinner.TickMsg`, `nil`, ...). -/
inductive Msg where
  | FileReadMsg (files : List File) (size : Int)
  | CompressedMsg (payload : Option File) (size : Int)
  | ConnectMsg (password : String) (conn : Rendezvous)
  | TransferTypeMsg (type : Nat)
  | SecureMsg (Conn : Transfer)
  | ProgressMsg (n : Int)
  | FinishedMsg
  | ErrorMsg (error : String)
  | KeyMsg (string : String)
  | WindowSizeMsg (Width : Int) (Height : Int)
  | FrameMsg (id : Int) (tag : Int)
  | otherMsg (tag : Nat)
deriving DecidableEq, Repr

/-- The commands (`tea.Cmd`) that the sender UI hands to bubbletea. A command is a
function value in Go; here it is the record of which function was built from which
arguments. `libraryCmd` is a command made by the spinner or the progress bar. -/
inductive Cmd where
  | none
  | spinnerTick
  | readFilesCmd (paths : Option (List String))
  | connectCmd (addr : TCPAddr)
  | secureCmd (rc : Rendezvous) (password : String)
  | transferCmd (tc : Transfer) (payload : Option File) (payloadSize : Int) (msgs : List Chan)
  | compressFilesCmd (files : List File)
  | listenTransferCmd (msgs : Chan)
  | quitCmd
  | returnMsg (msg : Msg)
  | teaQuit
  | libraryCmd (code : Nat)
  | teaBatch (cmds : List Cmd)

/-- What the sender UI uses from outside `sender.go`: package `ui`, package `tools`,
`strings.ToLower`, reflow, the bubbles spinner and progress bar, and the float64
arithmetic of the progress percentage. -/
structure Ext where
  PadText : String
  InfoStyle : String → String
  HelpStyle : String → String
  ItalicText : String → String
  BoldText : String → String
  QuitCommandsHelpText : String
  TopLevelFilesText : Option (List String) → String
  MAX_WIDTH : Int
  PADDING : Int
  QuitKeys : List String
  ProgressBar : ProgressModel
  WaitingSpinner : Nat
  CompressingSpinner : Nat
  TransferSpinner : Nat
  /-- The style `lipgloss.NewStyle().Foreground(lipgloss.Color(ui.ELEMENT_COLOR))`. -/
  elementStyle : Nat
  ByteCountSI : Int → String
  Contains : List String → String → Bool
  ToLower : String → String
  indentString : String → Int → String
  wordwrapString : String → Int → String
  spinnerNewModel : SpinnerModel
  spinnerUpdate : SpinnerModel → Msg → SpinnerModel × Nat
  spinnerView : SpinnerModel → String
  /-- The call `m.progressBar.SetPercent(percent)` where `percent` is
  `float64(msg) / float64(m.payloadSize)`, lowered to `1.0` when greater. -/
  progressSetPercent : ProgressModel → Int → Int → ProgressModel × Nat
  progressUpdate : ProgressModel → Msg → ProgressModel × Nat
  progressView : ProgressModel → String

/-- The struct `senderUIModel`. A slice is `none` when it is `nil`. -/
structure senderUIModel where
  state : uiState
  errorMessage : String
  readyToSend : Bool
  msgs : Chan
  rendezvousAddr : TCPAddr
  password : String
  fileNames : Option (List String)
  uncompressedSize : Int
  payload : Option File
  payloadSize : Int
  spinner : SpinnerModel
  progressBar : ProgressModel
deriving DecidableEq, Repr

/-- The method `resetSpinner`. -/
def resetSpinner (e : Ext) (m : senderUIModel) : senderUIModel :=
  let s0 : SpinnerModel := e.spinnerNewModel
  let s1 : SpinnerModel := { s0 with Style := e.elementStyle }
  let s2 : SpinnerModel :=
    if m.readyToSend then { s1 with Spinner := e.WaitingSpinner }
    else { s1 with Spinner := e.CompressingSpinner }
  let s3 : SpinnerModel :=
    if m.state = showSendingProgress then { s2 with Spinner := e.TransferSpinner } else s2
  { m with spinner := s3 }

/-- The model that `NewSenderUI` builds and hands to `tea.NewProgram`; `msgs` is the
channel that `make` returns. -/
def NewSenderUI (e : Ext) (filenames : Option (List String)) (addr : TCPAddr)
    (msgs : Chan) : senderUIModel :=
  resetSpinner e
    { state := showPasswordWithCopy
      errorMessage := ""
      readyToSend := false
      msgs := msgs
      rendezvousAddr := addr
      password := ""
      fileNames := filenames
      uncompressedSize := 0
      payload := Option.none
      payloadSize := 0
      spinner := { Spinner := 0, Style := 0, internal := 0 }
      progressBar := e.ProgressBar }

/-- The method `Init`. -/
def Init (m : senderUIModel) : Cmd :=
  Cmd.teaBatch [Cmd.spinnerTick, Cmd.readFilesCmd m.fileNames, Cmd.connectCmd m.rendezvousAddr]

/-- What one call of `Update` gives: the model and the command it returns, and the text
it wrote to the clipboard, if any. -/
structure UpdateResult where
  model : senderUIModel
  cmd : Cmd
  clipboard : Option String

/-- The method `Update` (`sender.go`, lines 180-261). -/
def Update (e : Ext) (m : senderUIModel) (msg : Msg) : UpdateResult :=
  match msg with
  | Msg.FileReadMsg files size =>
    { model := { m with uncompressedSize := size }
      cmd := Cmd.compressFilesCmd files, clipboard := Option.none }
  | Msg.CompressedMsg payload size =>
    { model := resetSpinner e { m with payload := payload, payloadSize := size, readyToSend := true }
      cmd := Cmd.spinnerTick, clipboard := Option.none }
  | Msg.ConnectMsg password conn =>
    { model := { m with password := password }
      cmd := Cmd.secureCmd conn password, clipboard := Option.none }
  | Msg.TransferTypeMsg _ =>
    { model := m, cmd := Cmd.listenTransferCmd m.msgs, clipboard := Option.none }
  | Msg.SecureMsg Conn =>
    if !m.readyToSend then
      { model := m, cmd := Cmd.returnMsg (Msg.SecureMsg Conn), clipboard := Option.none }
    else
      { model := m
        cmd := Cmd.teaBatch
          [Cmd.transferCmd Conn m.payload m.payloadSize [m.msgs], Cmd.listenTransferCmd m.msgs]
        clipboard := Option.none }
  | Msg.ProgressMsg n =>
    let m1 : senderUIModel :=
      if m.state ≠ showSendingProgress then
        resetSpinner e { m with state := showSendingProgress }
      else m
    let r := e.progressSetPercent m1.progressBar n m1.payloadSize
    { model := { m1 with progressBar := r.1 }
      cmd := Cmd.teaBatch [Cmd.libraryCmd r.2, Cmd.listenTransferCmd m1.msgs, Cmd.spinnerTick]
      clipboard := Option.none }
  | Msg.FinishedMsg =>
    { model := { m with state := showFinished }, cmd := Cmd.teaQuit, clipboard := Option.none }
  | Msg.ErrorMsg error =>
    { model := { m with state := showError, errorMessage := error }
      cmd := Cmd.none, clipboard := Option.none }
  | Msg.KeyMsg string =>
    if m.state = showPasswordWithCopy ∧ e.ToLower string = copyPasswordKey then
      { model := { m with state := showPassword }
        cmd := Cmd.none, clipboard := some ("portal receive " ++ m.password) }
    else if e.Contains e.QuitKeys (e.ToLower string) then
      { model := m, cmd := Cmd.teaQuit, clipboard := Option.none }
    else
      { model := m, cmd := Cmd.none, clipboard := Option.none }
  | Msg.WindowSizeMsg Width _ =>
    let w := Width - 2 * e.PADDING - 4
    let w1 := if w > e.MAX_WIDTH then e.MAX_WIDTH else w
    { model := { m with progressBar := { m.progressBar with Width := w1 } }
      cmd := Cmd.none, clipboard := Option.none }
  | Msg.FrameMsg id tag =>
    let r := e.progressUpdate m.progressBar (Msg.FrameMsg id tag)
    { model := { m with progressBar := r.1 }, cmd := Cmd.libraryCmd r.2, clipboard := Option.none }
  | Msg.otherMsg tag =>
    let r := e.spinnerUpdate m.spinner (Msg.otherMsg tag)
    { model := { m with spinner := r.1 }, cmd := Cmd.libraryCmd r.2, clipboard := Option.none }

/-- The length `len(s)` of a slice, `0` for `nil`. -/
def len (s : Option (List String)) : Nat := (s.getD []).length

/-- The slice after `sort.Strings`. -/
def sortStrings (s : List String) : List String := s.insertionSort (fun a b => a ≤ b)

/-- The text `fileInfoText` that `View` computes before its switch. -/
def fileInfoText (e : Ext) (m : senderUIModel) : String :=
  let readiness0 := e.spinnerView m.spinner ++ " Compressing objects, preparing to send"
  let readiness1 :=
    if m.readyToSend then e.spinnerView m.spinner ++ " Awaiting receiver, ready to send"
    else readiness0
  let readiness :=
    if m.state = showSendingProgress then e.spinnerView m.spinner ++ " Sending" else readiness1
  match m.fileNames with
  | some names =>
    if m.payloadSize ≠ 0 then
      let sorted := sortStrings names
      let filesToSend := e.ItalicText (", ".intercalate sorted)
      let payloadSize := e.BoldText (e.ByteCountSI m.payloadSize)
      let text := readiness ++ " " ++ toString sorted.length ++ " objects (" ++ payloadSize ++ ")"
      let indentedWrappedFiles :=
        e.indentString (e.wordwrapString ("Sending: " ++ filesToSend) e.MAX_WIDTH) e.PADDING
      text ++ "\n\n" ++ indentedWrappedFiles
    else readiness ++ " object(s)..."
  | Option.none => readiness ++ " object(s)..."

/-- The slice `m.fileNames` after a call of `View`, which sorts it in place. -/
def fileNamesAfterView (m : senderUIModel) : Option (List String) :=
  match m.fileNames with
  | some names => if m.payloadSize ≠ 0 then some (sortStrings names) else some names
  | Option.none => Option.none

/-- The method `View` (`sender.go`, lines 263-319). The `default` case of its switch is
for a state outside the five constants, which the type `uiState` here does not have. -/
def View (e : Ext) (m : senderUIModel) : String :=
  match m.state with
  | showPassword | showPasswordWithCopy =>
    let copyText :=
      if m.state = showPasswordWithCopy then "(press 'c' to copy the command to your clipboard)"
      else "(password copied to clipboard)"
    "\n" ++
      e.PadText ++ e.InfoStyle (fileInfoText e m) ++ "\n\n" ++
      e.PadText ++ e.InfoStyle "On the receiving end, run:" ++ "\n" ++
      e.PadText ++ e.InfoStyle ("portal receive " ++ m.password) ++ "\n\n" ++
      e.PadText ++ e.HelpStyle copyText ++ "\n\n"
  | showSendingProgress =>
    "\n" ++
      e.PadText ++ e.InfoStyle (fileInfoText e m) ++ "\n\n" ++
      e.PadText ++ e.progressView m.progressBar ++ "\n\n" ++
      e.PadText ++ e.QuitCommandsHelpText ++ "\n\n"
  | showFinished =>
    let payloadSize := e.BoldText (e.ByteCountSI m.payloadSize)
    let indentedWrappedFiles :=
      e.indentString
        ("Sent: " ++ e.wordwrapString (e.ItalicText (e.TopLevelFilesText (fileNamesAfterView m))) e.MAX_WIDTH)
        e.PADDING
    let finishedText :=
      "Sent " ++ toString (len m.fileNames) ++ " objects (" ++ payloadSize ++ " decompressed)\n\n" ++
        indentedWrappedFiles
    "\n" ++
      e.PadText ++ e.InfoStyle finishedText ++ "\n\n" ++
      e.PadText ++ e.progressView m.progressBar ++ "\n\n" ++
      e.PadText ++ e.QuitCommandsHelpText ++ "\n\n"
  | showError => m.errorMessage

mutual
/-- The transfer commands inside a command: the connection, payload and size of each. -/
def Cmd.transfers : Cmd → List (Transfer × Option File × Int)
  | Cmd.transferCmd tc payload payloadSize _ => [(tc, payload, payloadSize)]
  | Cmd.teaBatch cmds => Cmd.transfersOfList cmds
  | _ => []
/-- The transfer commands inside the commands of a batch. -/
def Cmd.transfersOfList : List Cmd → List (Transfer × Option File × Int)
  | [] => []
  | c :: cs => Cmd.transfers c ++ Cmd.transfersOfList cs
end

/-- The model after a sequence of messages, each given to `Update` in turn. -/
def run (e : Ext) (m : senderUIModel) (msgs : List Msg) : senderUIModel :=
  msgs.foldl (fun m msg => (Update e m msg).model) m

/-- The payload and size of the latest `CompressedMsg` of a sequence of messages. -/
def lastCompressed (msgs : List Msg) : Option (Option File × Int) :=
  msgs.foldl
    (fun latest msg =>
      match msg with
      | Msg.CompressedMsg payload size => some (payload, size)
      | _ => latest)
    Option.none

/-- A sample of the outside world of the sender UI, with styles that leave text as it is. -/
def sampleExt : Ext where
  PadText := "  "
  InfoStyle := fun s => s
  HelpStyle := fun s => s
  ItalicText := fun s => s
  BoldText := fun s => s
  QuitCommandsHelpText := "(any other key to cancel)"
  TopLevelFilesText := fun s => ", ".intercalate (s.getD [])
  MAX_WIDTH := 80
  PADDING := 2
  QuitKeys := ["ctrl+c", "q", "esc"]
  ProgressBar := { Width := 40, internal := 0 }
  WaitingSpinner := 1
  CompressingSpinner := 2
  TransferSpinner := 3
  elementStyle := 1
  ByteCountSI := fun n => toString n ++ " B"
  Contains := fun l s => l.contains s
  ToLower := fun s => s.toLower
  indentString := fun s _ => s
  wordwrapString := fun s _ => s
  spinnerNewModel := { Spinner := 0, Style := 0, internal := 0 }
  spinnerUpdate := fun s _ => (s, 0)
  spinnerView := fun _ => "*"
  progressSetPercent := fun p _ _ => (p, 0)
  progressUpdate := fun p _ => (p, 0)
  progressView := fun _ => "[....]"

/-- A sample address of a rendezvous server. -/
def sampleAddr : TCPAddr := { IP := [127, 0, 0, 1], Port := 80, Zone := "" }


/-- A text `s` contains a text `t` when `t` is a run of consecutive characters of `s`. -/
def containsText (s t : String) : Prop := t.data <:+: s.data

end SenderUI

namespace Main

/-- A sample of the constants of `initConfig`. -/
def sampleConstants : Constants where
  CONFIG_FILE_NAME := ".portal.yml"
  DEFAULT_CONFIG_YAML := "verbose: false"
  filepathJoin := fun a b => a ++ "/" ++ b

end Main

/-! ## The primitives that the secured channel names (spec §4.2)

The AEAD of the secured channel is ChaCha20-Poly1305 (RFC 8439) and its key comes from
HKDF (RFC 5869) over SHA-256 (FIPS 180-4). A byte is a natural number; every byte that
these functions produce is below 256. -/

namespace Crypto

/-- A byte, as a natural number (below 256 in every frame that the code builds). -/
abbrev Byte := Nat

/-- The `w` bytes of `n`, most significant first. -/
def beBytes (w n : Nat) : List Byte :=
  (List.range w).map (fun i => n / 256 ^ (w - 1 - i) % 256)

/-- The `w` bytes of `n`, least significant first. -/
def leBytes (w n : Nat) : List Byte :=
  (List.range w).map (fun i => n / 256 ^ i % 256)

/-- The number that a list of bytes spells, most significant first. -/
def beNat (bs : List Byte) : Nat := bs.foldl (fun acc b => acc * 256 + b) 0

/-- The number that a list of bytes spells, least significant first. -/
def leNat (bs : List Byte) : Nat := bs.foldr (fun b acc => b + 256 * acc) 0

/-- Rotation of a 32-bit word to the left by `n` bits. -/
def rotl32 (x n : Nat) : Nat := (x * 2 ^ n % 2 ^ 32) + x / 2 ^ (32 - n)

/-- Rotation of a 32-bit word to the right by `n` bits. -/
def rotr32 (x n : Nat) : Nat := rotl32 x (32 - n)

/-- Addition of 32-bit words. -/
def add32 (x y : Nat) : Nat := (x + y) % 2 ^ 32

/-- The blocks of `n` bytes of a list, in order; the last one may be shorter. -/
def chunks (n : Nat) (l : List Byte) : List (List Byte) :=
  (List.range ((l.length + n - 1) / n)).map (fun i => (l.drop (n * i)).take n)

/-- Modelled from the spec: the round constants of SHA-256, the hash under the HKDF of
§4.2 (FIPS 180-4, §4.2.2). -/
def sha256K : List Nat :=
  [1116352408, 1899447441, 3049323471, 3921009573, 961987163, 1508970993,
   2453635748, 2870763221, 3624381080, 310598401, 607225278, 1426881987,
   1925078388, 2162078206, 2614888103, 3248222580, 3835390401, 4022224774,
   264347078, 604807628, 770255983, 1249150122, 1555081692, 1996064986,
   2554220882, 2821834349, 2952996808, 3210313671, 3336571891, 3584528711,
   113926993, 338241895, 666307205, 773529912, 1294757372, 1396182291,
   1695183700, 1986661051, 2177026350, 2456956037, 2730485921, 2820302411,
   3259730800, 3345764771, 3516065817, 3600352804, 4094571909, 275423344,
   430227734, 506948616, 659060556, 883997877, 958139571, 1322822218,
   1537002063, 1747873779, 1955562222, 2024104815, 2227730452, 2361852424,
   2428436474, 2756734187, 3204031479, 3329325298]

/-- Modelled from the spec: the initial hash value of SHA-256 (FIPS 180-4, §5.3.3). -/
def sha256Init : List Nat :=
  [1779033703, 3144134277, 1013904242, 2773480762, 1359893119, 2600822924,
   528734635, 1541459225]

/-- Modelled from the spec: the padding of SHA-256: the bit 1, zeros up to 56 modulo 64
bytes, and the length in bits on 8 bytes. -/
def sha256Pad (msg : List Byte) : List Byte :=
  msg ++ [0x80] ++ List.replicate ((119 - msg.length % 64) % 64) 0 ++ beBytes 8 (8 * msg.length)

/-- Modelled from the spec: the message schedule of SHA-256, the 64 words of one block. -/
def sha256Schedule (block : List Byte) : List Nat :=
  (List.range 48).foldl
    (fun w i =>
      let x15 := w.getD (i + 1) 0
      let x2 := w.getD (i + 14) 0
      let s0 := rotr32 x15 7 ^^^ rotr32 x15 18 ^^^ (x15 / 2 ^ 3)
      let s1 := rotr32 x2 17 ^^^ rotr32 x2 19 ^^^ (x2 / 2 ^ 10)
      w ++ [add32 (add32 (add32 s1 (w.getD (i + 9) 0)) s0) (w.getD i 0)])
    ((List.range 16).map (fun i => beNat ((block.drop (4 * i)).take 4)))

/-- Modelled from the spec: round `t` of the compression function of SHA-256 on the
working variables `a` to `h`. -/
def sha256Round (w : List Nat) (s : List Nat) (t : Nat) : List Nat :=
  match s with
  | [a, b, c, d, e, f, g, h] =>
    let S1 := rotr32 e 6 ^^^ rotr32 e 11 ^^^ rotr32 e 25
    let ch := (e &&& f) ^^^ ((2 ^ 32 - 1 - e) &&& g)
    let t1 := add32 (add32 (add32 (add32 h S1) ch) (sha256K.getD t 0)) (w.getD t 0)
    let S0 := rotr32 a 2 ^^^ rotr32 a 13 ^^^ rotr32 a 22
    let maj := (a &&& b) ^^^ (a &&& c) ^^^ (b &&& c)
    let t2 := add32 S0 maj
    [add32 t1 t2, a, b, c, add32 d t1, e, f, g]
  | _ => s

/-- Modelled from the spec: the compression function of SHA-256 on one block. -/
def sha256Compress (h : List Nat) (block : List Byte) : List Nat :=
  List.zipWith add32 h ((List.range 64).foldl (sha256Round (sha256Schedule block)) h)

/-- Modelled from the spec: SHA-256, the hash under the HKDF of §4.2. -/
def sha256 (msg : List Byte) : List Byte :=
  (((chunks 64 (sha256Pad msg)).foldl sha256Compress sha256Init).map (beBytes 4)).flatten

/-- Modelled from the spec: HMAC-SHA256 (RFC 2104), the keyed hash of HKDF. -/
def hmacSha256 (key msg : List Byte) : List Byte :=
  let k0 := if key.length > 64 then sha256 key else key
  let k := k0 ++ List.replicate (64 - k0.length) 0
  sha256 (k.map (fun b => b ^^^ 0x5c) ++ sha256 (k.map (fun b => b ^^^ 0x36) ++ msg))

/-- Modelled from the spec: the extract step of HKDF (RFC 5869, §2.2). -/
def hkdfExtract (salt ikm : List Byte) : List Byte :=
  hmacSha256 (if salt = [] then List.replicate 32 0 else salt) ikm

/-- Modelled from the spec: the expand step of HKDF (RFC 5869, §2.3). -/
def hkdfExpand (prk info : List Byte) (len : Nat) : List Byte :=
  (((List.range ((len + 31) / 32)).foldl
      (fun (acc : List Byte × List Byte) i =>
        let t := hmacSha256 prk (acc.1 ++ info ++ [i + 1])
        (t, acc.2 ++ t))
      ([], [])).2).take len

/-- Modelled from the spec: HKDF, by which "keys are derived ... over the PAKE-produced
shared secret, with the salt ... and a fixed info string" (§4.2). -/
def hkdf (secret salt info : List Byte) (len : Nat) : List Byte :=
  hkdfExpand (hkdfExtract salt secret) info len

/-- Modelled from the spec: the quarter round of ChaCha20 on the words `a`, `b`, `c`, `d`
of the state (RFC 8439, §2.1). -/
def quarterRound (s : List Nat) (a b c d : Nat) : List Nat :=
  let xa := add32 (s.getD a 0) (s.getD b 0)
  let xd := rotl32 (s.getD d 0 ^^^ xa) 16
  let xc := add32 (s.getD c 0) xd
  let xb := rotl32 (s.getD b 0 ^^^ xc) 12
  let ya := add32 xa xb
  let yd := rotl32 (xd ^^^ ya) 8
  let yc := add32 xc yd
  let yb := rotl32 (xb ^^^ yc) 7
  (((s.set a ya).set b yb).set c yc).set d yd

/-- Modelled from the spec: a column round and a diagonal round of ChaCha20. -/
def doubleRound (s : List Nat) : List Nat :=
  let s1 := quarterRound s 0 4 8 12
  let s2 := quarterRound s1 1 5 9 13
  let s3 := quarterRound s2 2 6 10 14
  let s4 := quarterRound s3 3 7 11 15
  let s5 := quarterRound s4 0 5 10 15
  let s6 := quarterRound s5 1 6 11 12
  let s7 := quarterRound s6 2 7 8 13
  quarterRound s7 3 4 9 14

/-- Modelled from the spec: the ChaCha20 block function: 64 bytes of key stream from a
32-byte key, a block counter and a 12-byte nonce (RFC 8439, §2.3). -/
def chacha20Block (key : List Byte) (counter : Nat) (nonce : List Byte) : List Byte :=
  let words := fun (bs : List Byte) (n : Nat) =>
    (List.range n).map (fun i => leNat ((bs.drop (4 * i)).take 4))
  let init := [0x61707865, 0x3320646e, 0x79622d32, 0x6b206574] ++ words key 8 ++
    [counter % 2 ^ 32] ++ words nonce 3
  let final := (List.range 10).foldl (fun s _ => doubleRound s) init
  ((List.zipWith add32 init final).map (leBytes 4)).flatten

/-- Modelled from the spec: the first `n` bytes of the ChaCha20 key stream: byte `i` is
byte `i % 64` of block `counter + i / 64`. -/
def chacha20Keystream (key : List Byte) (counter : Nat) (nonce : List Byte) (n : Nat) :
    List Byte :=
  (List.range n).map (fun i => (chacha20Block key (counter + i / 64) nonce).getD (i % 64) 0)

/-- Modelled from the spec: ChaCha20 encryption, the data xor the key stream
(RFC 8439, §2.4). -/
def chacha20Encrypt (key : List Byte) (counter : Nat) (nonce : List Byte)
    (data : List Byte) : List Byte :=
  List.zipWith (fun b k => b ^^^ k) data (chacha20Keystream key counter nonce data.length)

/-- Modelled from the spec: the Poly1305 one-time authenticator, a tag of 16 bytes
(RFC 8439, §2.5). -/
def poly1305 (msg key : List Byte) : List Byte :=
  let r := leNat (key.take 16) &&& 0x0ffffffc0ffffffc0ffffffc0fffffff
  let s := leNat ((key.drop 16).take 16)
  let acc := (chunks 16 msg).foldl
    (fun acc c => (acc + leNat (c ++ [1])) * r % (2 ^ 130 - 5)) 0
  leBytes 16 ((acc + s) % 2 ^ 128)

/-- The zero bytes that bring a length to a multiple of 16. -/
def pad16 (x : List Byte) : List Byte := List.replicate ((16 - x.length % 16) % 16) 0

/-- Modelled from the spec: the authentication tag of ChaCha20-Poly1305 over the
associated data and the ciphertext (RFC 8439, §2.8). -/
def aeadTag (key nonce aad ct : List Byte) : List Byte :=
  let otk := (chacha20Block key 0 nonce).take 32
  poly1305 (aad ++ pad16 aad ++ ct ++ pad16 ct ++ leBytes 8 aad.length ++ leBytes 8 ct.length) otk

/-- Modelled from the spec: encryption with "a standard authenticated construction
(ChaCha20-Poly1305 ...)" (§4.2): the ciphertext followed by the tag. -/
def aeadSeal (key nonce aad plaintext : List Byte) : List Byte :=
  chacha20Encrypt key 1 nonce plaintext ++
    aeadTag key nonce aad (chacha20Encrypt key 1 nonce plaintext)

/-- Modelled from the spec: decryption with ChaCha20-Poly1305: `none` when the tag does
not match ("authentication-tag mismatch", §4.2). -/
def aeadOpen (key nonce aad sealed : List Byte) : Option (List Byte) :=
  if sealed.length < 16 then none
  else if sealed.drop (sealed.length - 16) = aeadTag key nonce aad (sealed.take (sealed.length - 16))
  then some (chacha20Encrypt key 1 nonce (sealed.take (sealed.length - 16)))
  else none

end Crypto

/-! ## `internal/conn` (its test is `internal/conn/conn_test.go`)

The package `internal/conn` and the message packages are not among the embedded
sources: only the test of `conn` is. The transport `mockConn` is embedded from the test;
the codec, the messages and the two connection types follow the words of the
specification (§3, §4.1, §4.2, §6, §7). -/

namespace Conn

open Crypto

/-- Modelled from the spec: the error kinds, a closed enumeration (§7). -/
inductive ErrorKind where
  | IO_ERROR | FRAME_TOO_LARGE | MALFORMED | REPLAY | AUTH_FAIL | PAKE_FAIL | NO_SUCH_SESSION
  | SESSION_EXPIRED | SERVER_BUSY | TIMEOUT | SIZE_MISMATCH | UNSAFE_PATH | UNEXPECTED_MESSAGE
  | CANCELLED
deriving DecidableEq, Repr

/-- Modelled from the spec: the small integer that stands for an error kind on the wire,
its position in the enumeration of §7. -/
def ErrorKind.code : ErrorKind → Nat
  | IO_ERROR => 0 | FRAME_TOO_LARGE => 1 | MALFORMED => 2 | REPLAY => 3 | AUTH_FAIL => 4
  | PAKE_FAIL => 5 | NO_SUCH_SESSION => 6 | SESSION_EXPIRED => 7 | SERVER_BUSY => 8
  | TIMEOUT => 9 | SIZE_MISMATCH => 10 | UNSAFE_PATH => 11 | UNEXPECTED_MESSAGE => 12
  | CANCELLED => 13

/-- Modelled from the spec: the error kind that a small integer stands for. -/
def ErrorKind.ofCode : Nat → Option ErrorKind
  | 0 => some IO_ERROR | 1 => some FRAME_TOO_LARGE | 2 => some MALFORMED | 3 => some REPLAY
  | 4 => some AUTH_FAIL | 5 => some PAKE_FAIL | 6 => some NO_SUCH_SESSION
  | 7 => some SESSION_EXPIRED | 8 => some SERVER_BUSY | 9 => some TIMEOUT
  | 10 => some SIZE_MISMATCH | 11 => some UNSAFE_PATH | 12 => some UNEXPECTED_MESSAGE
  | 13 => some CANCELLED | _ => none

/-- The content of the channel `c := make(chan []byte, 2)` that the two `mockConn` of the
test share: the frames in it, oldest first. -/
abbrev Channel := List (List Byte)

/-- The capacity of the channel of the test. -/
def channelCapacity : Nat := 2

/-- The method `mockConn.Write` (`conn_test.go`, lines 17-20): it sends the frame on the
channel and returns `nil`. The result is `none` when the send blocks, the channel being
full. -/
def mockConn.Write (ch : Channel) (b : List Byte) : Option (Channel × Option ErrorKind) :=
  if ch.length < channelCapacity then some (ch ++ [b], none) else none

/-- The method `mockConn.Read` (`conn_test.go`, lines 22-24): it receives a frame from
the channel and returns it with `nil`. The result is `none` when the receive blocks, the
channel being empty. -/
def mockConn.Read (ch : Channel) : Option (Channel × List Byte × Option ErrorKind) :=
  match ch with
  | [] => none
  | b :: rest => some (rest, b, none)

/-- The four bytes of a length, most significant first. -/
def be32 (n : Nat) : List Byte := [n / 2 ^ 24 % 256, n / 2 ^ 16 % 256, n / 2 ^ 8 % 256, n % 256]

/-- Modelled from the spec: the wire codec "encodes one message as big-endian 4-byte
length followed by the serialized message body" (§4.1). -/
def encodeFrame (body : List Byte) : List Byte := be32 body.length ++ body

/-- Modelled from the spec: the codec reads a frame back; it "fails with
`FRAME_TOO_LARGE` if the announced length exceeds an implementation-chosen cap" and
"with `MALFORMED` on decode error" (§4.1). -/
def decodeFrame (cap : Nat) (frame : List Byte) : Except ErrorKind (List Byte) :=
  match frame with
  | l3 :: l2 :: l1 :: l0 :: body =>
    if beNat [l3, l2, l1, l0] > cap then Except.error ErrorKind.FRAME_TOO_LARGE
    else if body.length ≠ beNat [l3, l2, l1, l0] then Except.error ErrorKind.MALFORMED
    else Except.ok body
  | _ => Except.error ErrorKind.MALFORMED

/-- Modelled from the spec: a value of the "self-describing tag-value encoding" of a
message body (§4.1): an unsigned integer or a run of bytes. -/
inductive Value where
  | uint (n : Nat)
  | bytes (b : List Byte)
deriving DecidableEq, Repr

/-- The bytes of a natural number, most significant first, without leading zeros. -/
def natBytes (n : Nat) : List Byte := (Nat.digits 256 n).reverse

/-- The natural number that bytes spell, most significant first. -/
def natOfBytes (bs : List Byte) : Nat := Nat.ofDigits 256 bs.reverse

/-- Modelled from the spec: a value on the wire: the tag of its kind, the length of its
content on four bytes, and its content. -/
def encodeValue : Value → List Byte
  | Value.uint n => 1 :: (be32 (natBytes n).length ++ natBytes n)
  | Value.bytes b => 2 :: (be32 b.length ++ b)

/-- Modelled from the spec: the first value of a run of bytes, and the bytes after it. -/
def decodeValue (bs : List Byte) : Option (Value × List Byte) :=
  match bs with
  | kind :: l3 :: l2 :: l1 :: l0 :: rest =>
    if rest.length < beNat [l3, l2, l1, l0] then none
    else if kind = 1 then
      some (Value.uint (natOfBytes (rest.take (beNat [l3, l2, l1, l0]))),
        rest.drop (beNat [l3, l2, l1, l0]))
    else if kind = 2 then
      some (Value.bytes (rest.take (beNat [l3, l2, l1, l0])), rest.drop (beNat [l3, l2, l1, l0]))
    else none
  | _ => none

/-- Modelled from the spec: the fields of a message on the wire, one after the other. -/
def encodeValues (vs : List Value) : List Byte := (vs.map encodeValue).flatten

/-- Modelled from the spec: the values that a run of bytes holds. Each value takes at
least five bytes, so a fuel of the number of bytes is enough. -/
def decodeValues : Nat → List Byte → Option (List Value)
  | _, [] => some []
  | 0, _ :: _ => none
  | fuel + 1, b :: bs =>
    match decodeValue (b :: bs) with
    | none => none
    | some (v, rest) => (decodeValues fuel rest).map (fun vs => v :: vs)

/-- Modelled from the spec: a serialized message body: "a small-integer tag plus a
tag-specific payload serialized deterministically" (§6). -/
def encodeBody (tag : Nat) (fields : List Value) : List Byte := tag :: encodeValues fields

/-- Modelled from the spec: the tag and the fields of a serialized message body. -/
def decodeBody (body : List Byte) : Option (Nat × List Value) :=
  match body with
  | [] => none
  | tag :: rest => (decodeValues rest.length rest).map (fun vs => (tag, vs))

/-- Modelled from the spec: the mode that the sender proposes (§4.4, step 6). -/
inductive Mode where
  | direct | relay
deriving DecidableEq, Repr

/-- Modelled from the spec: the answer of the receiver to the proposed mode: it "signals
`DIRECT_OK`", "otherwise it signals `RELAY`" (§4.4, step 6). -/
inductive ModeAck where
  | DIRECT_OK | RELAY
deriving DecidableEq, Repr

/-- Modelled from the spec: the "externally reachable {ip, port}" of the sender (§4.4). -/
structure Addr where
  ip : List Byte
  port : Nat
deriving DecidableEq, Repr

namespace rendezvous

/-- Modelled from the spec: the rendezvous message types, a closed set (§6). -/
inductive MsgType where
  | SenderToRendezvousEstablish
  | RendezvousToSenderBind
  | ReceiverToRendezvousEstablish
  | RendezvousToSenderReady
  | SenderToRendezvousPAKE
  | RendezvousToReceiverPAKE
  | ReceiverToRendezvousPAKE
  | RendezvousToSenderPAKE
  | SenderReadyForTransfer
  | ReceiverReadyForTransfer
  | RendezvousToSenderClose
  | RendezvousToReceiverClose
deriving DecidableEq, Repr

/-- Modelled from the spec: a rendezvous message, "a tagged record {type, payload}" (§3)
held as a discriminated union (§9), each type with the payload of the table of §6. -/
inductive Msg where
  | SenderToRendezvousEstablish
  | RendezvousToSenderBind (id : Nat)
  | ReceiverToRendezvousEstablish (id : Nat)
  | RendezvousToSenderReady
  | SenderToRendezvousPAKE (bytes : List Byte)
  | RendezvousToReceiverPAKE (bytes : List Byte)
  | ReceiverToRendezvousPAKE (bytes : List Byte)
  | RendezvousToSenderPAKE (bytes : List Byte)
  | SenderReadyForTransfer (mode : Mode) (addr : Option Addr)
  | ReceiverReadyForTransfer (modeAck : ModeAck)
  | RendezvousToSenderClose (reason : ErrorKind)
  | RendezvousToReceiverClose (reason : ErrorKind)
deriving DecidableEq, Repr

/-- Modelled from the spec: the field `Type` of a rendezvous message. -/
def Msg.Type : Msg → MsgType
  | Msg.SenderToRendezvousEstablish => MsgType.SenderToRendezvousEstablish
  | Msg.RendezvousToSenderBind _ => MsgType.RendezvousToSenderBind
  | Msg.ReceiverToRendezvousEstablish _ => MsgType.ReceiverToRendezvousEstablish
  | Msg.RendezvousToSenderReady => MsgType.RendezvousToSenderReady
  | Msg.SenderToRendezvousPAKE _ => MsgType.SenderToRendezvousPAKE
  | Msg.RendezvousToReceiverPAKE _ => MsgType.RendezvousToReceiverPAKE
  | Msg.ReceiverToRendezvousPAKE _ => MsgType.ReceiverToRendezvousPAKE
  | Msg.RendezvousToSenderPAKE _ => MsgType.RendezvousToSenderPAKE
  | Msg.SenderReadyForTransfer _ _ => MsgType.SenderReadyForTransfer
  | Msg.ReceiverReadyForTransfer _ => MsgType.ReceiverReadyForTransfer
  | Msg.RendezvousToSenderClose _ => MsgType.RendezvousToSenderClose
  | Msg.RendezvousToReceiverClose _ => MsgType.RendezvousToReceiverClose

/-- Modelled from the spec: the small-integer tag of a rendezvous message on the wire:
the position of its type in the table of §6. -/
def Msg.tag : Msg → Nat
  | Msg.SenderToRendezvousEstablish => 0
  | Msg.RendezvousToSenderBind _ => 1
  | Msg.ReceiverToRendezvousEstablish _ => 2
  | Msg.RendezvousToSenderReady => 3
  | Msg.SenderToRendezvousPAKE _ => 4
  | Msg.RendezvousToReceiverPAKE _ => 5
  | Msg.ReceiverToRendezvousPAKE _ => 6
  | Msg.RendezvousToSenderPAKE _ => 7
  | Msg.SenderReadyForTransfer _ _ => 8
  | Msg.ReceiverReadyForTransfer _ => 9
  | Msg.RendezvousToSenderClose _ => 10
  | Msg.RendezvousToReceiverClose _ => 11

/-- Modelled from the spec: the tag-specific payload of a rendezvous message, as values. -/
def Msg.fields : Msg → List Value
  | Msg.SenderToRendezvousEstablish => []
  | Msg.RendezvousToSenderBind id => [Value.uint id]
  | Msg.ReceiverToRendezvousEstablish id => [Value.uint id]
  | Msg.RendezvousToSenderReady => []
  | Msg.SenderToRendezvousPAKE bytes => [Value.bytes bytes]
  | Msg.RendezvousToReceiverPAKE bytes => [Value.bytes bytes]
  | Msg.ReceiverToRendezvousPAKE bytes => [Value.bytes bytes]
  | Msg.RendezvousToSenderPAKE bytes => [Value.bytes bytes]
  | Msg.SenderReadyForTransfer Mode.direct none => [Value.uint 0]
  | Msg.SenderReadyForTransfer Mode.relay none => [Value.uint 1]
  | Msg.SenderReadyForTransfer Mode.direct (some a) =>
    [Value.uint 0, Value.bytes a.ip, Value.uint a.port]
  | Msg.SenderReadyForTransfer Mode.relay (some a) =>
    [Value.uint 1, Value.bytes a.ip, Value.uint a.port]
  | Msg.ReceiverReadyForTransfer ModeAck.DIRECT_OK => [Value.uint 0]
  | Msg.ReceiverReadyForTransfer ModeAck.RELAY => [Value.uint 1]
  | Msg.RendezvousToSenderClose reason => [Value.uint reason.code]
  | Msg.RendezvousToReceiverClose reason => [Value.uint reason.code]

/-- Modelled from the spec: the rendezvous message of a tag and its payload values;
`none` when the payload is not the one of the tag. -/
def Msg.ofFields : Nat → List Value → Option Msg
  | 0, [] => some Msg.SenderToRendezvousEstablish
  | 1, [Value.uint id] => some (Msg.RendezvousToSenderBind id)
  | 2, [Value.uint id] => some (Msg.ReceiverToRendezvousEstablish id)
  | 3, [] => some Msg.RendezvousToSenderReady
  | 4, [Value.bytes bytes] => some (Msg.SenderToRendezvousPAKE bytes)
  | 5, [Value.bytes bytes] => some (Msg.RendezvousToReceiverPAKE bytes)
  | 6, [Value.bytes bytes] => some (Msg.ReceiverToRendezvousPAKE bytes)
  | 7, [Value.bytes bytes] => some (Msg.RendezvousToSenderPAKE bytes)
  | 8, [Value.uint 0] => some (Msg.SenderReadyForTransfer Mode.direct none)
  | 8, [Value.uint 1] => some (Msg.SenderReadyForTransfer Mode.relay none)
  | 8, [Value.uint 0, Value.bytes ip, Value.uint port] =>
    some (Msg.SenderReadyForTransfer Mode.direct (some { ip := ip, port := port }))
  | 8, [Value.uint 1, Value.bytes ip, Value.uint port] =>
    some (Msg.SenderReadyForTransfer Mode.relay (some { ip := ip, port := port }))
  | 9, [Value.uint 0] => some (Msg.ReceiverReadyForTransfer ModeAck.DIRECT_OK)
  | 9, [Value.uint 1] => some (Msg.ReceiverReadyForTransfer ModeAck.RELAY)
  | 10, [Value.uint code] => (ErrorKind.ofCode code).map Msg.RendezvousToSenderClose
  | 11, [Value.uint code] => (ErrorKind.ofCode code).map Msg.RendezvousToReceiverClose
  | _, _ => none

/-- Modelled from the spec: the serialized body of a rendezvous message. -/
def serialize (msg : Msg) : List Byte := encodeBody msg.tag msg.fields

/-- Modelled from the spec: the rendezvous message of a serialized body. -/
def deserialize (body : List Byte) : Option Msg :=
  match decodeBody body with
  | none => none
  | some (tag, fields) => Msg.ofFields tag fields

end rendezvous

/-- Modelled from the spec: the cap on the announced length of a rendezvous frame,
"recommended 16 MiB for rendezvous" (§4.1). -/
def RENDEZVOUS_FRAME_CAP : Nat := 16 * 1024 * 1024

/-- Modelled from the spec: the method `WriteMsg` of `conn.Rendezvous`, absent from the
sources: the codec of §4.1 encodes the message and writes the frame to the transport; a
transport error is an `IO_ERROR`. The result is `none` when the transport blocks. -/
def Rendezvous.WriteMsg (ch : Channel) (msg : rendezvous.Msg) :
    Option (Channel × Option ErrorKind) :=
  match mockConn.Write ch (encodeFrame (rendezvous.serialize msg)) with
  | none => none
  | some (ch1, none) => some (ch1, none)
  | some (ch1, some _) => some (ch1, some ErrorKind.IO_ERROR)

/-- Modelled from the spec: the method `ReadMsg` of `conn.Rendezvous`, absent from the
sources: it reads a frame from the transport and decodes it with the codec of §4.1. The
result is `none` when the transport blocks. -/
def Rendezvous.ReadMsg (ch : Channel) : Option (Channel × Except ErrorKind rendezvous.Msg) :=
  match mockConn.Read ch with
  | none => none
  | some (ch1, _, some _) => some (ch1, Except.error ErrorKind.IO_ERROR)
  | some (ch1, frame, none) =>
    match decodeFrame RENDEZVOUS_FRAME_CAP frame with
    | Except.error err => some (ch1, Except.error err)
    | Except.ok body =>
      match rendezvous.deserialize body with
      | none => some (ch1, Except.error ErrorKind.MALFORMED)
      | some msg => some (ch1, Except.ok msg)

/-- A PAKE message whose bytes alone fill the cap of a rendezvous frame. -/
def oversizeRendezvousMsg : rendezvous.Msg :=
  rendezvous.Msg.SenderToRendezvousPAKE (List.replicate RENDEZVOUS_FRAME_CAP 0)

namespace transfer

/-- Modelled from the spec: the transfer message types (§3, §6). -/
inductive MsgType where
  | ReceiverHandshake | SenderHandshake | PayloadChunk | ReceiverAck | SenderClose
  | ReceiverClose
deriving DecidableEq, Repr

/-- Modelled from the spec: a transfer message, "a tagged record {type, payload} distinct
from rendezvous messages" (§3), held as a discriminated union (§9). -/
inductive Msg where
  | ReceiverHandshake
  | SenderHandshake (payloadSize : Nat)
  | PayloadChunk (bytes : List Byte)
  | ReceiverAck (bytesSoFar : Nat)
  | SenderClose
  | ReceiverClose
deriving DecidableEq, Repr

/-- Modelled from the spec: the field `Type` of a transfer message. -/
def Msg.Type : Msg → MsgType
  | Msg.ReceiverHandshake => MsgType.ReceiverHandshake
  | Msg.SenderHandshake _ => MsgType.SenderHandshake
  | Msg.PayloadChunk _ => MsgType.PayloadChunk
  | Msg.ReceiverAck _ => MsgType.ReceiverAck
  | Msg.SenderClose => MsgType.SenderClose
  | Msg.ReceiverClose => MsgType.ReceiverClose

/-- Modelled from the spec: the small-integer tag of a transfer message on the wire. -/
def Msg.tag : Msg → Nat
  | Msg.ReceiverHandshake => 0
  | Msg.SenderHandshake _ => 1
  | Msg.PayloadChunk _ => 2
  | Msg.ReceiverAck _ => 3
  | Msg.SenderClose => 4
  | Msg.ReceiverClose => 5

/-- Modelled from the spec: the tag-specific payload of a transfer message, as values. -/
def Msg.fields : Msg → List Value
  | Msg.ReceiverHandshake => []
  | Msg.SenderHandshake payloadSize => [Value.uint payloadSize]
  | Msg.PayloadChunk bytes => [Value.bytes bytes]
  | Msg.ReceiverAck bytesSoFar => [Value.uint bytesSoFar]
  | Msg.SenderClose => []
  | Msg.ReceiverClose => []

/-- Modelled from the spec: the transfer message of a tag and its payload values. -/
def Msg.ofFields : Nat → List Value → Option Msg
  | 0, [] => some Msg.ReceiverHandshake
  | 1, [Value.uint payloadSize] => some (Msg.SenderHandshake payloadSize)
  | 2, [Value.bytes bytes] => some (Msg.PayloadChunk bytes)
  | 3, [Value.uint bytesSoFar] => some (Msg.ReceiverAck bytesSoFar)
  | 4, [] => some Msg.SenderClose
  | 5, [] => some Msg.ReceiverClose
  | _, _ => none

/-- Modelled from the spec: the direction in which a transfer message travels, for the
"4-byte direction tag" of the nonce (§4.2): 0 from the sender, 1 from the receiver. -/
def Msg.direction : Msg → Nat
  | Msg.ReceiverHandshake => 1
  | Msg.SenderHandshake _ => 0
  | Msg.PayloadChunk _ => 0
  | Msg.ReceiverAck _ => 1
  | Msg.SenderClose => 0
  | Msg.ReceiverClose => 1

/-- Modelled from the spec: the serialized body of a transfer message. -/
def serialize (msg : Msg) : List Byte := encodeBody msg.tag msg.fields

/-- Modelled from the spec: the transfer message of a serialized body. -/
def deserialize (body : List Byte) : Option Msg :=
  match decodeBody body with
  | none => none
  | some (tag, fields) => Msg.ofFields tag fields

end transfer

/-- Modelled from the spec: the cap on the announced length of a transfer frame,
"1 MiB for transfer chunks" (§4.1). -/
def TRANSFER_FRAME_CAP : Nat := 1024 * 1024

/-- Modelled from the spec: the "fixed info string" of the key derivation (§4.2), the
bytes of the text portal-transfer-v1. -/
def HKDF_INFO : List Byte :=
  [112, 111, 114, 116, 97, 108, 45, 116, 114, 97, 110, 115, 102, 101, 114, 45, 118, 49]

/-- Modelled from the spec: the state of one end of a secured channel: "AEAD key, salt,
send-nonce-counter, recv-nonce-counter" (§3); the framed connection under it is the
channel given to each method. -/
structure Transfer where
  key : List Byte
  salt : List Byte
  sendNonceCounter : Nat
  recvNonceCounter : Nat
deriving DecidableEq, Repr

/-- Modelled from the spec: the function `conn.TransferFromSession`, absent from the
sources: the key is "derived via HKDF over the PAKE-produced shared secret, with the
salt ... and a fixed info string" (§4.2), and the two counters start at zero. -/
def TransferFromSession (sessionkey salt : List Byte) : Transfer :=
  { key := hkdf sessionkey salt HKDF_INFO 32, salt := salt,
    sendNonceCounter := 0, recvNonceCounter := 0 }

/-- Modelled from the spec: the nonce, "derived from a 64-bit counter concatenated with
a 4-byte direction tag" (§4.2). -/
def Transfer.nonce (counter : Nat) (direction : Nat) : List Byte :=
  beBytes 8 counter ++ be32 direction

/-- Modelled from the spec: the body of a secured frame: the message is "serialized,
then encrypted" (§4.2) under the next value of the send counter, and the nonce is
embedded in front of the ciphertext (§3). -/
def Transfer.seal (t : Transfer) (msg : transfer.Msg) : List Byte :=
  Transfer.nonce (t.sendNonceCounter + 1) msg.direction ++
    aeadSeal t.key (Transfer.nonce (t.sendNonceCounter + 1) msg.direction) []
      (transfer.serialize msg)

/-- Modelled from the spec: the method `WriteMsg` of `conn.Transfer`, absent from the
sources: it seals the message, frames it with the codec and writes it to the transport,
and the send counter goes up by one. The result is `none` when the transport blocks. -/
def Transfer.WriteMsg (t : Transfer) (ch : Channel) (msg : transfer.Msg) :
    Option (Transfer × Channel × Option ErrorKind) :=
  match mockConn.Write ch (encodeFrame (t.seal msg)) with
  | none => none
  | some (ch1, none) => some ({ t with sendNonceCounter := t.sendNonceCounter + 1 }, ch1, none)
  | some (ch1, some _) => some (t, ch1, some ErrorKind.IO_ERROR)

/-- Modelled from the spec: the message and the counter of the body of a secured frame:
"the counter is validated as strictly greater than the last accepted value; an
out-of-order or repeated nonce fails with `REPLAY`. Authentication-tag mismatch fails
with `AUTH_FAIL`" (§4.2), and a body that does not decode is `MALFORMED` (§4.1). -/
def Transfer.unseal (t : Transfer) (body : List Byte) : Except ErrorKind (Nat × transfer.Msg) :=
  if body.length < 12 then Except.error ErrorKind.MALFORMED
  else if beNat ((body.take 12).take 8) ≤ t.recvNonceCounter then Except.error ErrorKind.REPLAY
  else
    match aeadOpen t.key (body.take 12) [] (body.drop 12) with
    | none => Except.error ErrorKind.AUTH_FAIL
    | some plaintext =>
      match transfer.deserialize plaintext with
      | none => Except.error ErrorKind.MALFORMED
      | some msg => Except.ok (beNat ((body.take 12).take 8), msg)

/-- Modelled from the spec: the method `ReadMsg` of `conn.Transfer`, absent from the
sources: it reads a frame from the transport, decodes it with the codec and opens it;
on success the counter of the frame is the last accepted one. The result is `none` when
the transport blocks. -/
def Transfer.ReadMsg (t : Transfer) (ch : Channel) :
    Option (Transfer × Channel × Except ErrorKind transfer.Msg) :=
  match mockConn.Read ch with
  | none => none
  | some (ch1, _, some _) => some (t, ch1, Except.error ErrorKind.IO_ERROR)
  | some (ch1, frame, none) =>
    match decodeFrame TRANSFER_FRAME_CAP frame with
    | Except.error err => some (t, ch1, Except.error err)
    | Except.ok body =>
      match t.unseal body with
      | Except.error err => some (t, ch1, Except.error err)
      | Except.ok (counter, msg) => some ({ t with recvNonceCounter := counter }, ch1, Except.ok msg)

/-- A payload chunk whose bytes alone fill the cap of a transfer frame. -/
def oversizeTransferMsg : transfer.Msg :=
  transfer.Msg.PayloadChunk (List.replicate TRANSFER_FRAME_CAP 0)

/-- The session key of the test, the bytes of `"sssshh... very secret secret"`. -/
def testSessionKey : List Byte :=
  [115, 115, 115, 115, 104, 104, 46, 46, 46, 32, 118, 101, 114, 121, 32, 115, 101, 99, 114,
   101, 116, 32, 115, 101, 99, 114, 101, 116]

/-- A salt of eight bytes. -/
def testSalt : List Byte := [1, 2, 3, 4, 5, 6, 7, 8]

end Conn

/-! # Theorems -/

namespace Main

theorem FS.read_put (fs : FS) (path content : String) :
    (fs.put path content).read path = some content := by
  simp [FS.read, FS.put]

/-- C3: the receive command exits with status 1, without calling the receive handler,
if and only if the number of its arguments is not one; with one argument it calls the
receive handler with that argument as the password. -/
theorem receiveRun_usage (po : programOptions) (args : List String) :
    ((∃ out, receiveRun po args = RunOutcome.exit 1 out) ↔ args.length ≠ 1) ∧
    (∀ password, ∃ opts,
      receiveRun po [password] = RunOutcome.handleReceiveCommand opts password) := by
  constructor
  · match args with
    | [] => simp [receiveRun]
    | [a] => simp [receiveRun]
    | a :: b :: rest => simp [receiveRun]
  · intro password
    exact ⟨_, rfl⟩

/-- C4 (the code at the failing input): with `--server example.org --port 8080` in the
program options, the receive command calls the receive handler with the address `"1"`
and the port `1`. -/
theorem receiveRun_ignores_programOptions :
    receiveRun { Verbose := "", RendezvousAddress := "example.org", RendezvousPort := 8080 }
        ["1-cosmic-ray-quasar"]
      = RunOutcome.handleReceiveCommand { RendezvousAddress := "1", RendezvousPort := 1 }
          "1-cosmic-ray-quasar" := by
  rfl

/-- C5 (counterexample): it is not so that, whenever the config file is not found,
`initConfig` creates the file with the default content and does not exit: when
`os.Create` fails it exits with status 1 and the file is not there. -/
theorem initConfig_notFound_counterexample :
    ¬ ∀ (k : Constants) (env : InitEnv) (fs : FS) (h : String),
        env.homedirDir = Except.ok h →
        env.readInConfig = some ReadInConfigError.ConfigFileNotFoundError →
        (initConfig k env fs).fs.read (k.filepathJoin h k.CONFIG_FILE_NAME)
            = some k.DEFAULT_CONFIG_YAML ∧
          (initConfig k env fs).exit = none := by
  intro hall
  have h := hall sampleConstants
    { homedirDir := Except.ok "/home/u"
      readInConfig := some ReadInConfigError.ConfigFileNotFoundError
      osCreate := some "permission denied"
      fileWrite := none } [] "/home/u" rfl rfl
  exact absurd h.2 (by decide)

/-- C5 (amended): for every home directory `h`, if reading the config succeeds
`initConfig` writes nothing and returns; if reading fails with an error other than
config-file-not-found it exits with status 1 and writes nothing; if reading fails with
config-file-not-found it creates the file at `h` joined with `CONFIG_FILE_NAME`: when
creating and writing succeed the file has exactly the content `DEFAULT_CONFIG_YAML` and
`initConfig` returns, when creating fails it exits with status 1 and no file is written,
and when writing fails it exits with status 1. -/
theorem initConfig_cases (k : Constants) (env : InitEnv) (fs : FS) (h : String)
    (hhome : env.homedirDir = Except.ok h) :
    (env.readInConfig = none →
      (initConfig k env fs).fs = fs ∧ (initConfig k env fs).exit = none) ∧
    (∀ err, env.readInConfig = some (ReadInConfigError.otherError err) →
      (initConfig k env fs).fs = fs ∧ (initConfig k env fs).exit = some 1) ∧
    (env.readInConfig = some ReadInConfigError.ConfigFileNotFoundError →
      (env.osCreate = none → env.fileWrite = none →
        (initConfig k env fs).fs = fs.put (k.filepathJoin h k.CONFIG_FILE_NAME) k.DEFAULT_CONFIG_YAML ∧
        (initConfig k env fs).fs.read (k.filepathJoin h k.CONFIG_FILE_NAME)
          = some k.DEFAULT_CONFIG_YAML ∧
        (initConfig k env fs).exit = none) ∧
      (∀ err, env.osCreate = some err →
        (initConfig k env fs).fs = fs ∧ (initConfig k env fs).exit = some 1) ∧
      (∀ w, env.osCreate = none → env.fileWrite = some w →
        (initConfig k env fs).exit = some 1)) := by
  refine ⟨?_, ?_, ?_⟩
  · intro hr
    simp [initConfig, hhome, hr]
  · intro err hr
    simp [initConfig, hhome, hr]
  · intro hr
    refine ⟨?_, ?_, ?_⟩
    · intro hc hw
      simp [initConfig, hhome, hr, hc, hw, FS.read_put]
    · intro err hc
      simp [initConfig, hhome, hr, hc]
    · intro w hc hw
      simp [initConfig, hhome, hr, hc, hw]

/-- At a home directory without a config file, where creating and writing succeed, the
file system afterwards holds the config file with the default content and nothing else. -/
theorem initConfig_cases_witness :
    (initConfig sampleConstants
      { homedirDir := Except.ok "/home/u"
        readInConfig := some ReadInConfigError.ConfigFileNotFoundError
        osCreate := none, fileWrite := none } []).fs
      = [("/home/u/.portal.yml", "verbose: false")] :=
  ((initConfig_cases sampleConstants
      { homedirDir := Except.ok "/home/u"
        readInConfig := some ReadInConfigError.ConfigFileNotFoundError
        osCreate := none, fileWrite := none } [] "/home/u" rfl).2.2 rfl).1 rfl rfl |>.1

end Main
namespace SenderUI

open uiState

theorem containsText_append_left (s b x : String) (h : containsText s x) :
    containsText (s ++ b) x := by
  unfold containsText at h ⊢
  rw [String.data_append]
  exact h.trans (List.infix_append' [] s.data b.data)

theorem containsText_append_right (a s x : String) (h : containsText s x) :
    containsText (a ++ s) x := by
  unfold containsText at h ⊢
  rw [String.data_append]
  exact h.trans (List.infix_append a.data s.data [] |>.trans (by simp))

/-- C6: for every password `p` and every model in state `showPasswordWithCopy` or
`showPassword`, `Update` with `ConnectMsg{password: p}` stores `p` as the password and
leaves the state as it is, and `View` of the resulting model is the password screen, whose
third line is `InfoStyle("portal receive " + p)`; since the style keeps the text it is
given, the view contains "portal receive " followed by `p`. -/
theorem Update_ConnectMsg_shows_password (e : Ext) (m : senderUIModel) (p : String)
    (conn : Rendezvous)
    (hstate : m.state = showPasswordWithCopy ∨ m.state = showPassword)
    (hstyle : containsText (e.InfoStyle ("portal receive " ++ p)) ("portal receive " ++ p)) :
    (Update e m (Msg.ConnectMsg p conn)).model.password = p ∧
    (Update e m (Msg.ConnectMsg p conn)).model.state = m.state ∧
    (Update e m (Msg.ConnectMsg p conn)).model = { m with password := p } ∧
    containsText (View e (Update e m (Msg.ConnectMsg p conn)).model) ("portal receive " ++ p) := by
  refine ⟨rfl, rfl, rfl, ?_⟩
  have hp := hstyle
  rcases hstate with hs | hs
  · simp only [Update, View, hs]
    iterate 4 apply containsText_append_left
    apply containsText_append_right
    exact hp
  · simp only [Update, View, hs]
    iterate 4 apply containsText_append_left
    apply containsText_append_right
    exact hp

/-- From the initial model, under styles that leave text as it is, the view after a
`ConnectMsg` contains the command to run on the receiving end. -/
theorem Update_ConnectMsg_shows_password_witness :
    ((NewSenderUI sampleExt (some ["a.txt"]) sampleAddr 0).state = showPasswordWithCopy ∨
      (NewSenderUI sampleExt (some ["a.txt"]) sampleAddr 0).state = showPassword) ∧
    containsText
      (View sampleExt
        (Update sampleExt (NewSenderUI sampleExt (some ["a.txt"]) sampleAddr 0)
          (Msg.ConnectMsg "1-cosmic-ray-quasar" 7)).model)
      ("portal receive " ++ "1-cosmic-ray-quasar") :=
  ⟨Or.inl rfl,
    (Update_ConnectMsg_shows_password sampleExt
      (NewSenderUI sampleExt (some ["a.txt"]) sampleAddr 0) "1-cosmic-ray-quasar" 7
      (Or.inl rfl) (List.infix_refl _)).2.2.2⟩

/-- C7 (the code on every input): `Update` with `ui.ErrorMsg(e)` returns a model in state
`showError` with `errorMessage = e.Error()`, whose `View` is exactly that text, and it
returns the command `nil`, which is not the command that quits the program. -/
theorem Update_ErrorMsg_returns_nil (e : Ext) (m : senderUIModel) (err : String) :
    (Update e m (Msg.ErrorMsg err)).model.state = showError ∧
    (Update e m (Msg.ErrorMsg err)).model.errorMessage = err ∧
    View e (Update e m (Msg.ErrorMsg err)).model = err ∧
    (Update e m (Msg.ErrorMsg err)).cmd = Cmd.none ∧
    (Update e m (Msg.ErrorMsg err)).cmd ≠ Cmd.teaQuit ∧
    (Update e m (Msg.ErrorMsg err)).cmd ≠ Cmd.quitCmd := by
  refine ⟨rfl, rfl, rfl, rfl, ?_, ?_⟩
  · intro h
    simp [Update] at h
  · intro h
    simp [Update] at h

/-- C8 (the code at the failing input): from the initial model, an error message takes
the UI to `showError`, and a progress message that follows takes it back to
`showSendingProgress`, which is earlier in the declared order. -/
theorem Update_ProgressMsg_goes_back (e : Ext) (names : Option (List String))
    (addr : TCPAddr) (msgs : Chan) (err : String) (n : Int) :
    (run e (NewSenderUI e names addr msgs) [Msg.ErrorMsg err]).state = showError ∧
    (Update e (run e (NewSenderUI e names addr msgs) [Msg.ErrorMsg err])
      (Msg.ProgressMsg n)).model.state = showSendingProgress ∧
    uiState.toInt showSendingProgress < uiState.toInt showError := by
  refine ⟨rfl, ?_, by decide⟩
  simp [run, Update, resetSpinner]

/-- C9 (the code at the failing input): after `FileReadMsg` with the uncompressed size
`u`, `CompressedMsg` with the payload size `c` and `FinishedMsg`, the finished view
reports `tools.ByteCountSI(c)`, the size of the compressed payload, as the
"decompressed" size; `u` does not occur in the view. -/
theorem View_showFinished_reports_payloadSize (e : Ext) (names : Option (List String))
    (addr : TCPAddr) (msgs : Chan) (files : List File) (u : Int) (payload : Option File)
    (c : Int) :
    View e (run e (NewSenderUI e names addr msgs)
        [Msg.FileReadMsg files u, Msg.CompressedMsg payload c, Msg.FinishedMsg]) =
      "\n" ++
        e.PadText ++ e.InfoStyle
          ("Sent " ++ toString (len names) ++ " objects (" ++ e.BoldText (e.ByteCountSI c) ++
            " decompressed)\n\n" ++
            e.indentString
              ("Sent: " ++ e.wordwrapString
                (e.ItalicText (e.TopLevelFilesText
                  (fileNamesAfterView
                    (run e (NewSenderUI e names addr msgs)
                      [Msg.FileReadMsg files u, Msg.CompressedMsg payload c, Msg.FinishedMsg]))))
                e.MAX_WIDTH)
              e.PADDING) ++ "\n\n" ++
        e.PadText ++ e.progressView e.ProgressBar ++ "\n\n" ++
        e.PadText ++ e.QuitCommandsHelpText ++ "\n\n" := by
  rfl

theorem View_showFinished_sample :
    View sampleExt (run sampleExt (NewSenderUI sampleExt (some ["a.txt"]) sampleAddr 0)
        [Msg.FileReadMsg [1] 1000, Msg.CompressedMsg (some 3) 100, Msg.FinishedMsg]) =
      "\n  Sent 1 objects (100 B decompressed)\n\nSent: a.txt\n\n  [....]\n\n  (any other key to cancel)\n\n" := by
  decide

theorem lastCompressed_append (msgs : List Msg) (msg : Msg) :
    lastCompressed (msgs ++ [msg]) =
      match msg with
      | Msg.CompressedMsg payload size => some (payload, size)
      | _ => lastCompressed msgs := by
  simp [lastCompressed, List.foldl_append]

theorem run_append (e : Ext) (m : senderUIModel) (msgs : List Msg) (msg : Msg) :
    run e m (msgs ++ [msg]) = (Update e (run e m msgs) msg).model := by
  simp [run, List.foldl_append]

theorem Update_payload (e : Ext) (m : senderUIModel) (msg : Msg) :
    match msg with
    | Msg.CompressedMsg payload size =>
      (Update e m msg).model.readyToSend = true ∧
        (Update e m msg).model.payload = payload ∧ (Update e m msg).model.payloadSize = size
    | _ =>
      (Update e m msg).model.readyToSend = m.readyToSend ∧
        (Update e m msg).model.payload = m.payload ∧
        (Update e m msg).model.payloadSize = m.payloadSize := by
  cases msg <;> simp only [Update] <;> (try split_ifs) <;> simp [resetSpinner]

theorem run_payload (e : Ext) (names : Option (List String)) (addr : TCPAddr) (ch : Chan)
    (msgs : List Msg) :
    match lastCompressed msgs with
    | some (payload, size) =>
      (run e (NewSenderUI e names addr ch) msgs).readyToSend = true ∧
        (run e (NewSenderUI e names addr ch) msgs).payload = payload ∧
        (run e (NewSenderUI e names addr ch) msgs).payloadSize = size
    | Option.none => (run e (NewSenderUI e names addr ch) msgs).readyToSend = false := by
  induction msgs using List.reverseRecOn with
  | nil => simp [lastCompressed, run, NewSenderUI, resetSpinner]
  | append_singleton msgs msg ih =>
    rw [lastCompressed_append, run_append]
    have hu := Update_payload e (run e (NewSenderUI e names addr ch) msgs) msg
    cases msg <;> simp only at hu ⊢ <;> first
      | exact hu
      | (cases hl : lastCompressed msgs with
          | none => rw [hl] at ih; simp only at ih ⊢; rw [hu.1]; exact ih
          | some x =>
            rw [hl] at ih; simp only at ih ⊢
            exact ⟨hu.1.trans ih.1, hu.2.1.trans ih.2.1, hu.2.2.trans ih.2.2⟩)

theorem Update_transfers (e : Ext) (m : senderUIModel) (msg : Msg)
    (t : Transfer × Option File × Int) (ht : t ∈ Cmd.transfers (Update e m msg).cmd) :
    m.readyToSend = true ∧ t.2 = (m.payload, m.payloadSize) := by
  cases msg with
  | SecureMsg Conn =>
    cases hr : m.readyToSend
    · simp [Update, hr, Cmd.transfers] at ht
    · simp [Update, hr, Cmd.transfers, Cmd.transfersOfList] at ht
      simp [ht]
  | KeyMsg string =>
    simp only [Update] at ht
    split_ifs at ht <;> simp [Cmd.transfers] at ht
  | _ => simp [Update, Cmd.transfers, Cmd.transfersOfList] at ht

/-- C10: a model with `readyToSend = false` that receives a `SecureMsg` is returned
unchanged, with a command that yields that same message and holds no transfer command;
and after every sequence of messages from the initial model, `readyToSend` is true only
if the sequence holds a `CompressedMsg`, and every transfer command that `Update` then
issues carries the payload and the size of the latest `CompressedMsg`. -/
theorem transfer_waits_for_CompressedMsg (e : Ext) (names : Option (List String))
    (addr : TCPAddr) (ch : Chan) (msgs : List Msg) (msg : Msg)
    (m : senderUIModel) (s : Transfer) (hready : m.readyToSend = false) :
    ((Update e m (Msg.SecureMsg s)).model = m ∧
      (Update e m (Msg.SecureMsg s)).cmd = Cmd.returnMsg (Msg.SecureMsg s) ∧
      Cmd.transfers (Update e m (Msg.SecureMsg s)).cmd = []) ∧
    ((run e (NewSenderUI e names addr ch) msgs).readyToSend = true →
      ∃ payload size, lastCompressed msgs = some (payload, size)) ∧
    (∀ t ∈ Cmd.transfers (Update e (run e (NewSenderUI e names addr ch) msgs) msg).cmd,
      lastCompressed msgs = some t.2) := by
  have hinv := run_payload e names addr ch msgs
  refine ⟨?_, ?_, ?_⟩
  · simp [Update, hready, Cmd.transfers]
  · intro hr
    cases hl : lastCompressed msgs with
    | none => rw [hl] at hinv; simp only at hinv; rw [hinv] at hr; cases hr
    | some x => exact ⟨x.1, x.2, rfl⟩
  · intro t ht
    obtain ⟨hr, hp⟩ := Update_transfers e _ msg t ht
    cases hl : lastCompressed msgs with
    | none => rw [hl] at hinv; simp only at hinv; rw [hinv] at hr; cases hr
    | some x =>
      rw [hl] at hinv; simp only at hinv
      rw [hp, hinv.2.1, hinv.2.2]

/-- The initial model is not ready to send and hands a `SecureMsg` back; after one
`CompressedMsg` the transfer command of a `SecureMsg` carries that payload and size. -/
theorem transfer_waits_for_CompressedMsg_witness :
    (NewSenderUI sampleExt (some ["a.txt"]) sampleAddr 0).readyToSend = false ∧
    (Update sampleExt (NewSenderUI sampleExt (some ["a.txt"]) sampleAddr 0)
        (Msg.SecureMsg 3)).cmd = Cmd.returnMsg (Msg.SecureMsg 3) ∧
    (∀ t ∈ Cmd.transfers
        (Update sampleExt
          (run sampleExt (NewSenderUI sampleExt (some ["a.txt"]) sampleAddr 0)
            [Msg.CompressedMsg (some 2) 5])
          (Msg.SecureMsg 3)).cmd,
      lastCompressed [Msg.CompressedMsg (some 2) 5] = some t.2) :=
  ⟨rfl,
    (transfer_waits_for_CompressedMsg sampleExt (some ["a.txt"]) sampleAddr 0
      [Msg.CompressedMsg (some 2) 5] (Msg.SecureMsg 3)
      (NewSenderUI sampleExt (some ["a.txt"]) sampleAddr 0) 3 rfl).1.2.1,
    (transfer_waits_for_CompressedMsg sampleExt (some ["a.txt"]) sampleAddr 0
      [Msg.CompressedMsg (some 2) 5] (Msg.SecureMsg 3)
      (NewSenderUI sampleExt (some ["a.txt"]) sampleAddr 0) 3 rfl).2.2⟩

end SenderUI

namespace Conn

open Crypto

/-! ### The codec reads back what it wrote -/

theorem be32_spec (n : Nat) (h : n < 2 ^ 32) :
    ∃ a b c d, be32 n = [a, b, c, d] ∧ beNat [a, b, c, d] = n := by
  refine ⟨_, _, _, _, rfl, ?_⟩
  simp only [beNat, List.foldl]
  omega

theorem natOfBytes_natBytes (n : Nat) : natOfBytes (natBytes n) = n := by
  simp [natOfBytes, natBytes, Nat.ofDigits_digits]

theorem decodeValue_encodeValue (v : Value) (rest : List Byte)
    (h : (encodeValue v).length < 2 ^ 32) :
    decodeValue (encodeValue v ++ rest) = some (v, rest) := by
  cases v with
  | uint n =>
    have h4 : (be32 (natBytes n).length).length = 4 := rfl
    simp only [encodeValue, List.length_cons, List.length_append, h4] at h
    obtain ⟨a, b, c, d, hbe, hn⟩ := be32_spec (natBytes n).length (by omega)
    simp [encodeValue, hbe, decodeValue, hn, natOfBytes_natBytes]
  | bytes b =>
    have h4 : (be32 b.length).length = 4 := rfl
    simp only [encodeValue, List.length_cons, List.length_append, h4] at h
    obtain ⟨a, b', c, d, hbe, hn⟩ := be32_spec b.length (by omega)
    simp [encodeValue, hbe, decodeValue, hn]

theorem encodeValue_length_pos (v : Value) : 5 ≤ (encodeValue v).length := by
  cases v <;> simp [encodeValue, be32]

theorem decodeValues_encodeValues (vs : List Value) (fuel : Nat)
    (hfuel : (encodeValues vs).length ≤ fuel) (h : (encodeValues vs).length < 2 ^ 32) :
    decodeValues fuel (encodeValues vs) = some vs := by
  induction vs generalizing fuel with
  | nil => cases fuel <;> simp [encodeValues, decodeValues]
  | cons v vs ih =>
    have hpos := encodeValue_length_pos v
    simp only [encodeValues, List.map_cons, List.flatten_cons, List.length_append] at hfuel h
    have hv : (encodeValue v).length < 2 ^ 32 := by omega
    obtain ⟨b, bs, hb⟩ : ∃ b bs, encodeValue v ++ encodeValues vs = b :: bs := by
      cases hh : encodeValue v ++ encodeValues vs with
      | nil => simp at hh; rw [hh.1] at hpos; simp at hpos
      | cons b bs => exact ⟨b, bs, rfl⟩
    cases fuel with
    | zero => omega
    | succ fuel =>
      simp only [encodeValues, List.map_cons, List.flatten_cons]
      show decodeValues (fuel + 1) (encodeValue v ++ encodeValues vs) = some (v :: vs)
      rw [hb, decodeValues, ← hb, decodeValue_encodeValue v _ hv]
      simp only
      rw [ih fuel (by simp only [encodeValues]; omega) (by simp only [encodeValues]; omega)]
      rfl

theorem decodeBody_encodeBody (tag : Nat) (fields : List Value)
    (h : (encodeBody tag fields).length < 2 ^ 32) :
    decodeBody (encodeBody tag fields) = some (tag, fields) := by
  simp only [encodeBody, List.length_cons] at h
  simp only [encodeBody, decodeBody]
  rw [decodeValues_encodeValues fields _ (le_refl _) (by omega)]
  rfl

theorem decodeFrame_encodeFrame (cap : Nat) (body : List Byte) (hcap : body.length ≤ cap)
    (h : body.length < 2 ^ 32) : decodeFrame cap (encodeFrame body) = Except.ok body := by
  obtain ⟨a, b, c, d, hbe, hn⟩ := be32_spec body.length h
  simp [encodeFrame, hbe, decodeFrame, hn]
  omega

theorem decodeFrame_too_large (cap : Nat) (body : List Byte) (hcap : cap < body.length)
    (h : body.length < 2 ^ 32) :
    decodeFrame cap (encodeFrame body) = Except.error ErrorKind.FRAME_TOO_LARGE := by
  obtain ⟨a, b, c, d, hbe, hn⟩ := be32_spec body.length h
  simp [encodeFrame, hbe, decodeFrame, hn]
  omega

/-! ### Rendezvous messages -/

theorem rendezvous_ofFields (m : rendezvous.Msg) :
    rendezvous.Msg.ofFields m.tag m.fields = some m := by
  cases m with
  | SenderReadyForTransfer mode addr => cases mode <;> cases addr <;> rfl
  | ReceiverReadyForTransfer modeAck => cases modeAck <;> rfl
  | RendezvousToSenderClose reason => cases reason <;> rfl
  | RendezvousToReceiverClose reason => cases reason <;> rfl
  | _ => rfl

theorem rendezvous_deserialize_serialize (m : rendezvous.Msg)
    (h : (rendezvous.serialize m).length < 2 ^ 32) :
    rendezvous.deserialize (rendezvous.serialize m) = some m := by
  unfold rendezvous.deserialize rendezvous.serialize
  rw [decodeBody_encodeBody _ _ h]
  exact rendezvous_ofFields m

theorem Rendezvous_WriteMsg_empty (m : rendezvous.Msg) :
    Rendezvous.WriteMsg [] m = some ([encodeFrame (rendezvous.serialize m)], none) := rfl

theorem Rendezvous_ReadMsg_fits (m : rendezvous.Msg)
    (hcap : (rendezvous.serialize m).length ≤ RENDEZVOUS_FRAME_CAP) :
    Rendezvous.ReadMsg [encodeFrame (rendezvous.serialize m)] = some ([], Except.ok m) := by
  have h32 : (rendezvous.serialize m).length < 2 ^ 32 := lt_of_le_of_lt hcap (by decide)
  simp only [Rendezvous.ReadMsg, mockConn.Read]
  rw [decodeFrame_encodeFrame _ _ hcap h32]
  simp only
  rw [rendezvous_deserialize_serialize m h32]

theorem Rendezvous_ReadMsg_too_large (m : rendezvous.Msg)
    (hcap : RENDEZVOUS_FRAME_CAP < (rendezvous.serialize m).length)
    (h32 : (rendezvous.serialize m).length < 2 ^ 32) :
    Rendezvous.ReadMsg [encodeFrame (rendezvous.serialize m)]
      = some ([], Except.error ErrorKind.FRAME_TOO_LARGE) := by
  simp only [Rendezvous.ReadMsg, mockConn.Read]
  rw [decodeFrame_too_large _ _ hcap h32]

theorem serialize_PAKE_length (bytes : List Byte) :
    (rendezvous.serialize (rendezvous.Msg.SenderToRendezvousPAKE bytes)).length
      = bytes.length + 6 := by
  simp [rendezvous.serialize, encodeBody, encodeValues, rendezvous.Msg.fields, encodeValue, be32]

theorem oversizeRendezvousMsg_length :
    (rendezvous.serialize oversizeRendezvousMsg).length = RENDEZVOUS_FRAME_CAP + 6 := by
  unfold oversizeRendezvousMsg
  rw [serialize_PAKE_length, List.length_replicate]

theorem oversizeRendezvousMsg_read :
    Rendezvous.ReadMsg [encodeFrame (rendezvous.serialize oversizeRendezvousMsg)]
      = some ([], Except.error ErrorKind.FRAME_TOO_LARGE) :=
  Rendezvous_ReadMsg_too_large _
    (by rw [oversizeRendezvousMsg_length]; omega)
    (by rw [oversizeRendezvousMsg_length]; decide)

/-- C1 (counterexample): it is not so that every rendezvous message written by `r1` is
read back by `r2`: a PAKE message of 16 MiB of bytes is written without error, and
`ReadMsg` then fails with `FRAME_TOO_LARGE`, the announced length being above the cap. -/
theorem Rendezvous_roundtrip_counterexample :
    ¬ ∀ m : rendezvous.Msg, ∃ ch, Rendezvous.WriteMsg [] m = some (ch, none) ∧
      Rendezvous.ReadMsg ch = some ([], Except.ok m) := by
  intro hall
  obtain ⟨ch, hw, hr⟩ := hall oversizeRendezvousMsg
  rw [Rendezvous_WriteMsg_empty] at hw
  injection hw with hw
  injection hw with hch _
  rw [← hch, oversizeRendezvousMsg_read] at hr
  injection hr with hr
  injection hr with _ hr
  cases hr

/-- C1 (amended): for every rendezvous message `m`, of every tag, whose serialized body
is not longer than the frame cap of the codec, when `r1` and `r2` share one empty
frame-preserving transport, `r1.WriteMsg(m)` returns no error and the following
`r2.ReadMsg()` returns no error and a message equal to `m`, in particular with the same
`Type`. -/
theorem Rendezvous_roundtrip (m : rendezvous.Msg)
    (hcap : (rendezvous.serialize m).length ≤ RENDEZVOUS_FRAME_CAP) :
    ∃ ch, Rendezvous.WriteMsg [] m = some (ch, none) ∧
      Rendezvous.ReadMsg ch = some ([], Except.ok m) ∧
      ∀ m1, Rendezvous.ReadMsg ch = some ([], Except.ok m1) → m1 = m ∧ m1.Type = m.Type := by
  have hread := Rendezvous_ReadMsg_fits m hcap
  refine ⟨_, Rendezvous_WriteMsg_empty m, hread, ?_⟩
  intro m1 h1
  rw [hread] at h1
  injection h1 with h1
  injection h1 with _ h1
  injection h1 with h1
  rw [h1]
  exact ⟨rfl, rfl⟩

/-- The message of the test, a `SenderToRendezvousEstablish`, fits the cap and is read
back as it was written. -/
theorem Rendezvous_roundtrip_witness :
    (rendezvous.serialize rendezvous.Msg.SenderToRendezvousEstablish).length
        ≤ RENDEZVOUS_FRAME_CAP ∧
    ∃ ch, Rendezvous.WriteMsg [] rendezvous.Msg.SenderToRendezvousEstablish = some (ch, none) ∧
      Rendezvous.ReadMsg ch = some ([], Except.ok rendezvous.Msg.SenderToRendezvousEstablish) ∧
      ∀ m1, Rendezvous.ReadMsg ch = some ([], Except.ok m1) →
        m1 = rendezvous.Msg.SenderToRendezvousEstablish ∧
        m1.Type = rendezvous.Msg.SenderToRendezvousEstablish.Type :=
  ⟨by decide, Rendezvous_roundtrip rendezvous.Msg.SenderToRendezvousEstablish (by decide)⟩

/-! ### The secured channel -/

theorem xor_cancel (b k : Nat) : (b ^^^ k) ^^^ k = b := by
  rw [Nat.xor_assoc, Nat.xor_self, Nat.xor_zero]

theorem zipWith_xor_cancel (d ks : List Nat) (h : d.length ≤ ks.length) :
    List.zipWith (fun b k => b ^^^ k) (List.zipWith (fun b k => b ^^^ k) d ks) ks = d := by
  induction d generalizing ks with
  | nil => simp
  | cons x d ih =>
    cases ks with
    | nil => simp at h
    | cons k ks =>
      simp only [List.length_cons, Nat.add_le_add_iff_right] at h
      simp only [List.zipWith_cons_cons, xor_cancel, ih ks h]

theorem chacha20Keystream_length (key : List Byte) (counter : Nat) (nonce : List Byte)
    (n : Nat) : (chacha20Keystream key counter nonce n).length = n := by
  simp [chacha20Keystream]

theorem chacha20Encrypt_length (key : List Byte) (counter : Nat) (nonce data : List Byte) :
    (chacha20Encrypt key counter nonce data).length = data.length := by
  simp [chacha20Encrypt, chacha20Keystream_length]

theorem chacha20Encrypt_involution (key : List Byte) (counter : Nat)
    (nonce data : List Byte) :
    chacha20Encrypt key counter nonce (chacha20Encrypt key counter nonce data) = data := by
  have hl := chacha20Encrypt_length key counter nonce data
  unfold chacha20Encrypt at hl ⊢
  rw [hl]
  exact zipWith_xor_cancel _ _ (by rw [chacha20Keystream_length])

theorem aeadTag_length (key nonce aad ct : List Byte) :
    (aeadTag key nonce aad ct).length = 16 := by
  simp [aeadTag, poly1305, leBytes]

theorem aeadOpen_aeadSeal (key nonce aad plaintext : List Byte) :
    aeadOpen key nonce aad (aeadSeal key nonce aad plaintext) = some plaintext := by
  have ht := aeadTag_length key nonce aad (chacha20Encrypt key 1 nonce plaintext)
  unfold aeadOpen aeadSeal
  simp only [List.length_append, ht, Nat.add_sub_cancel, List.take_left', List.drop_left']
  simp [chacha20Encrypt_involution]

theorem aeadSeal_length (key nonce aad plaintext : List Byte) :
    (aeadSeal key nonce aad plaintext).length = plaintext.length + 16 := by
  simp [aeadSeal, aeadTag_length, chacha20Encrypt_length]

theorem nonce_length (counter direction : Nat) :
    (Transfer.nonce counter direction).length = 12 := by
  simp [Transfer.nonce, beBytes, be32]

theorem seal_length (t : Transfer) (m : transfer.Msg) :
    (t.seal m).length = (transfer.serialize m).length + 28 := by
  simp [Transfer.seal, nonce_length, aeadSeal_length]
  omega

theorem transfer_ofFields (m : transfer.Msg) :
    transfer.Msg.ofFields m.tag m.fields = some m := by
  cases m <;> rfl

theorem transfer_deserialize_serialize (m : transfer.Msg)
    (h : (transfer.serialize m).length < 2 ^ 32) :
    transfer.deserialize (transfer.serialize m) = some m := by
  unfold transfer.deserialize transfer.serialize
  rw [decodeBody_encodeBody _ _ h]
  exact transfer_ofFields m

theorem Transfer_unseal_seal (sessionkey salt : List Byte) (m : transfer.Msg)
    (h32 : (transfer.serialize m).length < 2 ^ 32) :
    (TransferFromSession sessionkey salt).unseal ((TransferFromSession sessionkey salt).seal m)
      = Except.ok (1, m) := by
  have hn := nonce_length 1 m.direction
  have hc : beNat ((Transfer.nonce 1 m.direction).take 8) = 1 := by
    simp [Transfer.nonce, beBytes, beNat, List.range_succ]
  have hlen := seal_length (TransferFromSession sessionkey salt) m
  unfold Transfer.unseal
  rw [if_neg (by rw [hlen]; omega)]
  unfold Transfer.seal at hlen ⊢
  simp only [TransferFromSession, Nat.zero_add] at hlen ⊢
  rw [List.take_left' hn, List.drop_left' hn, hc]
  simp only [Nat.le_zero_eq, Nat.one_ne_zero, if_false]
  rw [aeadOpen_aeadSeal]
  simp only
  rw [transfer_deserialize_serialize m h32]

theorem Transfer_WriteMsg_empty (t : Transfer) (m : transfer.Msg) :
    t.WriteMsg [] m
      = some ({ t with sendNonceCounter := t.sendNonceCounter + 1 }, [encodeFrame (t.seal m)], none) :=
  rfl

theorem Transfer_ReadMsg_too_large (t1 t2 : Transfer) (m : transfer.Msg)
    (hcap : TRANSFER_FRAME_CAP < (transfer.serialize m).length + 28)
    (h32 : (transfer.serialize m).length + 28 < 2 ^ 32) :
    t2.ReadMsg [encodeFrame (t1.seal m)]
      = some (t2, [], Except.error ErrorKind.FRAME_TOO_LARGE) := by
  have hlen := seal_length t1 m
  simp only [Transfer.ReadMsg, mockConn.Read]
  rw [decodeFrame_too_large _ _ (by rw [hlen]; exact hcap) (by rw [hlen]; exact h32)]

theorem serialize_PayloadChunk_length (bytes : List Byte) :
    (transfer.serialize (transfer.Msg.PayloadChunk bytes)).length = bytes.length + 6 := by
  simp [transfer.serialize, encodeBody, encodeValues, transfer.Msg.fields, encodeValue, be32]

theorem oversizeTransferMsg_length :
    (transfer.serialize oversizeTransferMsg).length = TRANSFER_FRAME_CAP + 6 := by
  unfold oversizeTransferMsg
  rw [serialize_PayloadChunk_length, List.length_replicate]

/-- C2 (counterexample): it is not so that for every key, every salt of 8 bytes and every
transfer message, what `t1` writes is read back by `t2`: a payload chunk of 1 MiB of bytes
is written without error, and `ReadMsg` then fails with `FRAME_TOO_LARGE`. -/
theorem Transfer_roundtrip_counterexample :
    ¬ ∀ (sessionkey salt : List Byte) (m : transfer.Msg), salt.length = 8 →
      ∃ t1 ch t2,
        (TransferFromSession sessionkey salt).WriteMsg [] m = some (t1, ch, none) ∧
        (TransferFromSession sessionkey salt).ReadMsg ch = some (t2, [], Except.ok m) := by
  intro hall
  obtain ⟨t1, ch, t2, hw, hr⟩ := hall testSessionKey testSalt oversizeTransferMsg rfl
  rw [Transfer_WriteMsg_empty] at hw
  injection hw with hw
  injection hw with _ hw
  injection hw with hch _
  rw [← hch, Transfer_ReadMsg_too_large _ _ _
    (by rw [oversizeTransferMsg_length]; omega)
    (by rw [oversizeTransferMsg_length]; decide)] at hr
  injection hr with hr
  injection hr with _ hr
  injection hr with _ hr
  cases hr

/-- C2 (amended): for every session key, every salt and every transfer message `m` whose
sealed frame body (nonce, ciphertext and tag: 28 bytes more than the serialized message)
is not longer than the frame cap of the codec, when `t1` and `t2` are built by
`TransferFromSession` from the same key and the same salt over one shared empty
transport, `t1.WriteMsg(m)` returns no error and the following `t2.ReadMsg()` returns no
error and a message equal to `m`. -/
theorem Transfer_roundtrip (sessionkey salt : List Byte) (m : transfer.Msg)
    (hcap : (transfer.serialize m).length + 28 ≤ TRANSFER_FRAME_CAP) :
    ∃ t1 ch t2,
      (TransferFromSession sessionkey salt).WriteMsg [] m = some (t1, ch, none) ∧
      (TransferFromSession sessionkey salt).ReadMsg ch = some (t2, [], Except.ok m) := by
  have hcap2 : TRANSFER_FRAME_CAP < 2 ^ 32 := by decide
  have hlen := seal_length (TransferFromSession sessionkey salt) m
  refine ⟨_, _, { TransferFromSession sessionkey salt with recvNonceCounter := 1 },
    Transfer_WriteMsg_empty _ m, ?_⟩
  simp only [Transfer.ReadMsg, mockConn.Read]
  rw [decodeFrame_encodeFrame _ _ (by rw [hlen]; exact hcap) (by rw [hlen]; omega)]
  simp only
  rw [Transfer_unseal_seal sessionkey salt m (by omega)]

/-- With the key of the test and a salt of eight bytes, the message of the test, a
`ReceiverHandshake`, fits the cap and is read back as it was written. -/
theorem Transfer_roundtrip_witness :
    (transfer.serialize transfer.Msg.ReceiverHandshake).length + 28 ≤ TRANSFER_FRAME_CAP ∧
    ∃ t1 ch t2,
      (TransferFromSession testSessionKey testSalt).WriteMsg [] transfer.Msg.ReceiverHandshake
        = some (t1, ch, none) ∧
      (TransferFromSession testSessionKey testSalt).ReadMsg ch
        = some (t2, [], Except.ok transfer.Msg.ReceiverHandshake) :=
  ⟨by decide, Transfer_roundtrip testSessionKey testSalt transfer.Msg.ReceiverHandshake (by decide)⟩

end Conn

end Portal
